import Mathlib

/-!
Shallow embedding of the RZD ticket bot (src/rzd_api.py and src/bot.py).

Modelling conventions:
- Python `None`-able values are `Option _`; a JSON dict key that the code
  always writes (possibly with value `None`) is a plain `Option` field.
- Machine integers are `Nat`/`Int` (no overflow is relevant here).
- A Python function that can raise is `Except Unit _`; `Except.error ()`
  marks the raised exception, which the periodic-check loop catches.
- Python truthiness of a string-or-None value: `None` and `""` are falsy.
-/

/-- Truthiness of a Python string-or-None value: `None` and the empty
string are falsy, every other string is truthy. -/
def pyTruthy : Option String → Bool
  | none => false
  | some s => !s.isEmpty

/-- Rendering of a string-or-None value inside a Python f-string:
`None` prints as `"None"`. -/
def pyStr : Option String → String
  | none => "None"
  | some s => s

/-- One entry of a train's `cars` JSON array, with the three keys that
`RzdAPI._parse_seats` (src/rzd_api.py lines 76-88) reads via `.get`;
each is absent-or-present, absence modelled as `none`. Prices are
modelled as integers (`tariff`). -/
structure Car where
  carType : Option String
  freeSeats : Option Int
  tariff : Option Int
deriving DecidableEq

/-- One entry of the timetable's `tp` JSON array, with the keys that
`RzdAPI.get_tickets` (src/rzd_api.py lines 55-74) reads via `.get`. -/
structure Train where
  number : Option String
  date0 : Option String
  time0 : Option String
  date1 : Option String
  time1 : Option String
  timeInWay : Option String
  cars : List Car
deriving DecidableEq

/-- A seat dict as produced by `RzdAPI._parse_seats`: the keys `type`,
`free` and `price` are always present, each possibly holding `None`. -/
structure Seat where
  seatType : Option String
  free : Option Int
  price : Option Int
deriving DecidableEq

/-- A ticket dict as produced by `RzdAPI.get_tickets`: keys `number`,
`departure`, `arrival`, `duration`, `seats` are always present.
`departure`/`arrival` are the f-string concatenations, so they are
plain strings even when the underlying fields were `None`. -/
structure Ticket where
  number : Option String
  departure : String
  arrival : String
  duration : Option String
  seats : List Seat
deriving DecidableEq

/-- `RzdAPI._parse_seats` (src/rzd_api.py lines 76-88): maps every car
to a seat dict `{'type': car.get('type'), 'free': car.get('freeSeats'),
'price': car.get('tariff')}`. -/
def _parse_seats (train_data : Train) : List Seat :=
  train_data.cars.map fun c => ⟨c.carType, c.freeSeats, c.tariff⟩

/-- Builds one ticket dict from one train dict, exactly as the loop body
of `RzdAPI.get_tickets` (src/rzd_api.py lines 65-72) does. -/
def ticketOfTrain (t : Train) : Ticket :=
  { number := t.number
    departure := pyStr t.date0 ++ " " ++ pyStr t.time0
    arrival := pyStr t.date1 ++ " " ++ pyStr t.time1
    duration := t.timeInWay
    seats := _parse_seats t }

/-- The JSON dict returned by the timetable endpoint, as far as
`get_tickets` inspects it: either falsy (`{}`) or a truthy dict whose
`.get('tp', [])` is the given train list (`[]` when `tp` is absent). -/
inductive Timetable where
  | empty
  | nonEmpty (tp : List Train)
deriving DecidableEq

/-- Outcome of the underlying HTTP timetable request in
`RzdAPI.get_timetable` (src/rzd_api.py lines 34-53): the request and
JSON decoding succeed with some dict; or the request raises a
`requests.exceptions.RequestException` (caught there, `{}` returned);
or `response.json()` raises a parse error, which propagates. -/
inductive FetchOutcome where
  | ok (t : Timetable)
  | httpError
  | parseError
deriving DecidableEq

/-- `RzdAPI.get_timetable` (src/rzd_api.py lines 34-53): returns the
decoded dict; on `RequestException` logs and returns `{}`; a JSON parse
error propagates to the caller. -/
def get_timetable : FetchOutcome → Except Unit Timetable
  | .ok t => Except.ok t
  | .httpError => Except.ok Timetable.empty
  | .parseError => Except.error ()

/-- `RzdAPI.get_tickets` (src/rzd_api.py lines 55-74). The returned
Python value is modelled as `Option (List Ticket)` so that "returns
`None`" (`none`) is distinguishable from "returns a list" (`some _`);
the code's two return statements (`return []`, `return tickets`) both
produce `some`. An exception from `get_timetable` propagates. -/
def get_tickets (o : FetchOutcome) : Except Unit (Option (List Ticket)) :=
  match get_timetable o with
  | .error e => Except.error e
  | .ok Timetable.empty => Except.ok (some [])
  | .ok (Timetable.nonEmpty tp) => Except.ok (some (tp.map ticketOfTrain))

/-- `RzdTicketBot._find_new_tickets` (src/bot.py lines 150-153):
`old_numbers = {t.get('number') for t in old_tickets if t.get('number')}`
then keeps every new ticket whose `number` value is not in that set. -/
def _find_new_tickets (old_tickets new_tickets : List Ticket) : List Ticket :=
  let old_numbers := (old_tickets.filter fun t => pyTruthy t.number).map (·.number)
  new_tickets.filter fun t => decide (t.number ∉ old_numbers)

/-- `RzdTicketBot._format_price` (src/bot.py lines 298-308): keeps the
truthy `price` values (in Python `if s.get('price')`, so `None` and `0`
are skipped), returns "не указана" when none remain, otherwise the
minimum. The Python `float` rendering is simplified to integer text. -/
def _format_price (seats : List Seat) : String :=
  if seats.isEmpty then "не указана"
  else
    let prices := seats.filterMap fun s =>
      match s.price with
      | none => none
      | some p => if p = 0 then none else some p
    match prices with
    | [] => "не указана"
    | p :: ps => "от " ++ toString (ps.foldl min p) ++ " руб."

/-- `RzdTicketBot._format_seats` (src/bot.py lines 310-316): computes
`sum(int(s.get('free', 0)) for s in seats)`. The seat dicts produced by
`_parse_seats` always contain the key `free`, so `.get('free', 0)`
returns its value even when it is `None`, and `int(None)` raises a
`TypeError` — modelled as `Except.error ()`. -/
def _format_seats (seats : List Seat) : Except Unit String :=
  if seats.isEmpty then Except.ok "нет данных"
  else do
    let counts ← seats.mapM fun s =>
      match s.free with
      | none => Except.error ()
      | some i => Except.ok i
    let free_seats := counts.foldl (· + ·) 0
    Except.ok (if free_seats > 0 then toString free_seats ++ " свободных" else "нет мест")

/-- One per-ticket block of the notification message built in
`RzdTicketBot.check_tickets_periodically` (src/bot.py lines 128-135);
the `_format_seats` call inside the f-string can raise. -/
def ticketLine (t : Ticket) : Except Unit String := do
  let seatsText ← _format_seats t.seats
  Except.ok ("🚂 Поезд: " ++ pyStr t.number ++ "\n🕒 Отправление: " ++ t.departure
    ++ "\n🕓 Прибытие: " ++ t.arrival ++ "\n💰 Цена: " ++ _format_price t.seats
    ++ "\n💺 Места: " ++ seatsText ++ "\n\n")

/-- The whole notification message of one tick for one subscription
(src/bot.py lines 127-135): the header then one block per new ticket;
an exception while formatting any block propagates. -/
def buildMessage (new_tickets : List Ticket) : Except Unit String :=
  new_tickets.foldlM (fun acc t => do
    let line ← ticketLine t
    Except.ok (acc ++ line)) "🚀 Появились новые билеты:\n\n"

/-- A Python `datetime.date`: compared lexicographically on
(year, month, day). -/
structure PyDate where
  year : Nat
  month : Nat
  day : Nat
deriving DecidableEq

/-- Python `date.__lt__`: lexicographic comparison. -/
def dateLt (a b : PyDate) : Bool :=
  decide (a.year < b.year ∨ (a.year = b.year ∧
    (a.month < b.month ∨ (a.month = b.month ∧ a.day < b.day))))

/-- One subscription dict as held in `active_subscriptions`
(src/bot.py): the fields the periodic check reads and writes. The
stored `date` string always parses (it was validated by `select_date`),
so it is modelled as the parsed date; `last_check` is an abstract
timestamp. The station fields are irrelevant to the tick's state
change and are omitted. -/
structure Subscription where
  date : PyDate
  tickets : List Ticket
  last_check : Nat
deriving DecidableEq

/-- Observable trace of one subscription's processing in one tick of
`check_tickets_periodically`: `fetched` is true iff the
`rzd_api.get_tickets` call (src/bot.py line 109) was made; `noneSkip`
is true iff the `if tickets is None: continue` branch (line 119) was
taken; `notification` holds the message iff `context.bot.send_message`
(line 137) was reached and succeeded. -/
structure TickTrace where
  fetched : Bool
  noneSkip : Bool
  notification : Option String
deriving DecidableEq

/-- The body of the per-subscription loop of
`RzdTicketBot.check_tickets_periodically` (src/bot.py lines 106-147)
for one subscription: fetch (line 109), skip if the stored date is
before today (lines 115-117), skip if the fetch returned `None`
(lines 119-120), diff (line 123), build and send the notification when
the diff is non-empty (lines 125-140), then update `sub['tickets']`
and `sub['last_check']` (lines 143-144). Any exception — a fetch parse
error, a formatting error while building the message, or a failed
`send_message` (modelled by `sendOk = false`) — is caught by the
`except` clause (line 146), leaving the subscription exactly as it was
at the raise point. -/
def tickSub (today : PyDate) (now : Nat) (fetch : FetchOutcome) (sendOk : Bool)
    (sub : Subscription) : Subscription × TickTrace :=
  match get_tickets fetch with
  | .error _ => (sub, ⟨true, false, none⟩)
  | .ok ticketsOpt =>
    if dateLt sub.date today then (sub, ⟨true, false, none⟩)
    else
      match ticketsOpt with
      | none => (sub, ⟨true, true, none⟩)
      | some tickets =>
        let new_tickets := _find_new_tickets sub.tickets tickets
        if new_tickets.isEmpty then
          ({ sub with tickets := tickets, last_check := now }, ⟨true, false, none⟩)
        else
          match buildMessage new_tickets with
          | .error _ => (sub, ⟨true, false, none⟩)
          | .ok msg =>
            if sendOk then
              ({ sub with tickets := tickets, last_check := now }, ⟨true, false, some msg⟩)
            else (sub, ⟨true, false, none⟩)

/-- Conversation states, `range(4)` in src/bot.py line 20. -/
def SELECT_STATION_FROM : Nat := 0

/-- Conversation states, `range(4)` in src/bot.py line 20. -/
def SELECT_STATION_TO : Nat := 1

/-- Conversation states, `range(4)` in src/bot.py line 20. -/
def SELECT_DATE : Nat := 2

/-- Conversation states, `range(4)` in src/bot.py line 20. -/
def CONFIRM_SEARCH : Nat := 3

/-- Numeric value of an ASCII digit character. -/
def digitVal (c : Char) : Nat := c.toNat - 48

/-- CPython `_strptime` day pattern for `%d`:
`3[01]|[12]\d|0[1-9]|[1-9]` — a one-digit token `1`-`9`, or a two-digit
token whose value is 1..31 (a leading zero only for 01..09). Digits are
modelled as ASCII. -/
def dayOfToken : List Char → Option Nat
  | [c] => if c.isDigit ∧ c ≠ '0' then some (digitVal c) else none
  | [c1, c2] =>
    if c1.isDigit ∧ c2.isDigit then
      let v := 10 * digitVal c1 + digitVal c2
      if 1 ≤ v ∧ v ≤ 31 then some v else none
    else none
  | _ => none

/-- CPython `_strptime` month pattern for `%m`: `1[0-2]|0[1-9]|[1-9]` —
a one-digit token `1`-`9`, or a two-digit token whose value is 1..12. -/
def monthOfToken : List Char → Option Nat
  | [c] => if c.isDigit ∧ c ≠ '0' then some (digitVal c) else none
  | [c1, c2] =>
    if c1.isDigit ∧ c2.isDigit then
      let v := 10 * digitVal c1 + digitVal c2
      if 1 ≤ v ∧ v ≤ 12 then some v else none
    else none
  | _ => none

/-- CPython `_strptime` year pattern for `%Y`: exactly four digits. -/
def yearOfToken : List Char → Option Nat
  | [a, b, c, d] =>
    if a.isDigit ∧ b.isDigit ∧ c.isDigit ∧ d.isDigit then
      some (1000 * digitVal a + 100 * digitVal b + 10 * digitVal c + digitVal d)
    else none
  | _ => none

/-- Splits a character list on `'.'`, like Python `str.split('.')`:
`"a.b"` gives two components, the empty string gives one empty
component. -/
def splitOnDot : List Char → List (List Char)
  | [] => [[]]
  | c :: rest =>
    if c = '.' then [] :: splitOnDot rest
    else
      match splitOnDot rest with
      | [] => [[c]]
      | h :: t => (c :: h) :: t

/-- Gregorian leap year, as `calendar.isleap` / `datetime` use it. -/
def isLeap (y : Nat) : Bool :=
  decide ((y % 4 = 0 ∧ y % 100 ≠ 0) ∨ y % 400 = 0)

/-- Days in a month, as the `datetime` constructor validates them. -/
def daysInMonth (y m : Nat) : Nat :=
  if m = 2 then (if isLeap y then 29 else 28)
  else if m = 4 ∨ m = 6 ∨ m = 9 ∨ m = 11 then 30
  else 31

/-- `datetime.strptime(s, "%d.%m.%Y").date()` as a total function:
CPython compiles the format to the regex
`day\.month\.year` (token patterns above), requires the whole input to
be consumed, then builds a `datetime`, which demands `1 ≤ year` and a
calendar-valid day for the month. Because the token patterns match only
digits and the separators are literal dots, a successful regex match is
exactly a split of the input on `'.'` into three matching tokens.
`none` models the `ValueError` that `strptime` raises otherwise. -/
def parseDMY (s : String) : Option PyDate :=
  match splitOnDot s.data with
  | [dTok, mTok, yTok] =>
    match dayOfToken dTok, monthOfToken mTok, yearOfToken yTok with
    | some d, some m, some y =>
      if 1 ≤ y ∧ d ≤ daysInMonth y m then some ⟨y, m, d⟩ else none
    | _, _, _ => none
  | _ => none

/-- `RzdTicketBot.select_date` (src/bot.py lines 155-188), restricted
to its state-machine result: a `ValueError` from `strptime` or from the
past-date check is caught and the handler returns `SELECT_DATE`
(re-prompt); otherwise the handler proceeds and returns
`CONFIRM_SEARCH`. -/
def select_date (today : PyDate) (date_str : String) : Nat :=
  match parseDMY date_str with
  | none => SELECT_DATE
  | some d => if dateLt d today then SELECT_DATE else CONFIRM_SEARCH

example : parseDMY "01.01.2026" = some ⟨2026, 1, 1⟩ := by decide
example : parseDMY "3.1.2026" = some ⟨2026, 1, 3⟩ := by decide
example : parseDMY "31.02.2099" = none := by decide
example : parseDMY "29.02.2024" = some ⟨2024, 2, 29⟩ := by decide
example : parseDMY "29.02.2023" = none := by decide
example : parseDMY "01.01.026" = none := by decide
example : parseDMY "01.01.20261" = none := by decide
example : parseDMY "00.01.2026" = none := by decide
example : parseDMY "" = none := by decide
example : parseDMY "01012026" = none := by decide
example : select_date ⟨2026, 1, 1⟩ "31.12.2025" = SELECT_DATE := by decide
example : select_date ⟨2026, 1, 1⟩ "01.01.2026" = CONFIRM_SEARCH := by decide

/-- Sample ticket with a truthy train number, used in concrete
instantiations. -/
def tickA : Ticket := ⟨some "001A", "01.01 10:00", "01.01 18:00", some "8:00", []⟩

/-- Sample ticket with a second truthy train number. -/
def tickB : Ticket := ⟨some "002B", "01.01 11:00", "01.01 19:00", some "8:00", []⟩

/-- Sample ticket whose `number` value is `None` (a falsy train
number). -/
def tickNoNum : Ticket := ⟨none, "01.01 12:00", "01.01 20:00", none, []⟩

/-- Sample train dict as decoded from the timetable JSON. -/
def trainC : Train :=
  ⟨some "003C", some "01.01", some "12:00", some "01.01", some "20:00", some "8:00", []⟩

/-- Sample subscription with a future date and one stored ticket. -/
def sub1 : Subscription := ⟨⟨2099, 1, 1⟩, [tickA], 0⟩

/-- Sample subscription with a future date and no stored tickets. -/
def sub2 : Subscription := ⟨⟨2099, 1, 1⟩, [], 0⟩

/-- Sample subscription whose travel date is already past. -/
def subPast : Subscription := ⟨⟨2020, 1, 1⟩, [tickA], 0⟩

/-- Sample car dict with none of the three keys present. -/
def carNone : Car := ⟨none, none, none⟩

/-- Sample train dict whose single car has no `freeSeats` key, so the
parsed seat carries a null free-seat count. -/
def trainNullSeats : Train := ⟨some "001A", none, none, none, none, none, [carNone]⟩

/-- C3 counterexample: a network-failed fetch and a successful fetch
with zero offers both return `[]` — the two outcomes are NOT delivered
as distinct results, refuting the claim. -/
theorem c3_empty_indistinguishable_cex :
    get_tickets FetchOutcome.httpError = Except.ok (some []) ∧
    get_tickets (FetchOutcome.ok (Timetable.nonEmpty [])) = Except.ok (some []) ∧
    get_tickets FetchOutcome.httpError = get_tickets (FetchOutcome.ok (Timetable.nonEmpty [])) :=
  ⟨rfl, rfl, rfl⟩

/-- C3 amended: a JSON parse failure is raised to the caller as a
distinct outcome, but a network failure is swallowed and returned as an
empty list, indistinguishable from a successful fetch with zero offers;
every non-raising outcome is a list of tickets. -/
theorem c3_fetch_outcomes_amended :
    get_tickets FetchOutcome.parseError = Except.error () ∧
    get_tickets FetchOutcome.httpError = Except.ok (some []) ∧
    ∀ tb : Timetable, ∃ l : List Ticket, get_tickets (FetchOutcome.ok tb) = Except.ok (some l) := by
  refine ⟨rfl, rfl, ?_⟩
  intro tb
  cases tb with
  | empty => exact ⟨[], rfl⟩
  | nonEmpty tp => exact ⟨tp.map ticketOfTrain, rfl⟩

/-- C5 counterexample: for a list `O` holding one offer whose train
number is missing (`None`), `diff(O, O)` returns that offer again
instead of the empty list, refuting the claim's "for all O including
offers whose train number is missing or empty". -/
theorem c5_self_diff_falsy_number_cex :
    _find_new_tickets [tickNoNum] [tickNoNum] = [tickNoNum] ∧
    [tickNoNum] ≠ ([] : List Ticket) :=
  ⟨by decide, by decide⟩

/-- C5 amended: `diff(O, O) = []` holds for every `O` in which every
offer has a truthy (present and non-empty) train number; an offer with
a missing or empty train number is excluded from the old-number set and
is therefore reported as new even against an unchanged fetch. -/
theorem c5_self_diff_amended (O : List Ticket)
    (h : ∀ t ∈ O, pyTruthy t.number = true) :
    _find_new_tickets O O = [] := by
  simp only [_find_new_tickets]
  rw [List.filter_eq_nil_iff]
  intro t ht
  simp only [decide_eq_true_eq, Decidable.not_not]
  exact List.mem_map.2 ⟨t, List.mem_filter.2 ⟨ht, h t ht⟩, rfl⟩

/-- Witness for `c5_self_diff_amended` at `O = [tickA]`. -/
theorem c5_self_diff_amended_witness :
    pyTruthy tickA.number = true ∧ _find_new_tickets [tickA] [tickA] = [] :=
  ⟨by decide, c5_self_diff_amended [tickA] (by decide)⟩

/-- C6: the diff is a sublist of the new offers (hence order-preserving
and a subset), and no element of the diff shares a train number with an
old offer whose train number is truthy. -/
theorem c6_diff_sublist_excludes (O N : List Ticket) :
    (_find_new_tickets O N).Sublist N ∧
    ∀ o ∈ O, pyTruthy o.number = true →
      ∀ t ∈ _find_new_tickets O N, t.number ≠ o.number := by
  constructor
  · simp only [_find_new_tickets]
    exact List.filter_sublist N
  · intro o ho htr t ht heq
    simp only [_find_new_tickets, List.mem_filter, decide_eq_true_eq] at ht
    apply ht.2
    rw [heq]
    exact List.mem_map.2 ⟨o, List.mem_filter.2 ⟨ho, htr⟩, rfl⟩

/-- Witness for `c6_diff_sublist_excludes` at `O = [tickA]`,
`N = [tickA, tickB]`: `tickB` is in the diff, so its number differs
from `tickA`'s, and the diff is a sublist of `N`. -/
theorem c6_diff_sublist_excludes_witness :
    (_find_new_tickets [tickA] [tickA, tickB]).Sublist [tickA, tickB] ∧
    tickB.number ≠ tickA.number :=
  ⟨(c6_diff_sublist_excludes [tickA] [tickA, tickB]).1,
   (c6_diff_sublist_excludes [tickA] [tickA, tickB]).2 tickA (by decide) (by decide)
     tickB (by decide)⟩

/-- C9 (code bug): `_parse_seats` always emits the `free` key, here with
value `None`; `_format_seats` then evaluates `int(None)` and raises a
`TypeError` instead of treating the missing count as zero. The last two
conjuncts record the intended behavior on non-null counts. -/
theorem c9_null_free_count_raises :
    _parse_seats trainNullSeats = [⟨none, none, none⟩] ∧
    _format_seats [⟨none, none, none⟩] = Except.error () ∧
    _format_seats [⟨none, some 2, none⟩, ⟨none, some 3, none⟩] = Except.ok "5 свободных" ∧
    _format_seats [⟨none, some 0, none⟩] = Except.ok "нет мест" :=
  ⟨rfl, rfl, rfl, rfl⟩

/-- C10: `get_tickets` either raises or returns a list — it never
returns `None` — and consequently the `if tickets is None` skip branch
of the periodic check is never taken. -/
theorem c10_get_tickets_never_none (fetch : FetchOutcome) (today : PyDate) (now : Nat)
    (sendOk : Bool) (sub : Subscription) :
    (get_tickets fetch = Except.error () ∨ ∃ l, get_tickets fetch = Except.ok (some l)) ∧
    (tickSub today now fetch sendOk sub).2.noneSkip = false := by
  constructor
  · cases fetch with
    | ok t =>
      cases t with
      | empty => exact Or.inr ⟨[], rfl⟩
      | nonEmpty tp => exact Or.inr ⟨tp.map ticketOfTrain, rfl⟩
    | httpError => exact Or.inr ⟨[], rfl⟩
    | parseError => exact Or.inl rfl
  · cases fetch with
    | parseError => rfl
    | httpError =>
      simp only [tickSub, get_tickets, get_timetable]
      split <;> rfl
    | ok t =>
      cases t with
      | empty =>
        simp only [tickSub, get_tickets, get_timetable]
        split <;> rfl
      | nonEmpty tp =>
        simp only [tickSub, get_tickets, get_timetable]
        repeat' split
        all_goals rfl

/-- C1 counterexample: for a future-dated subscription holding one
ticket, a tick whose fetch fails at the network level (swallowed as an
empty offer list) CLEARS the stored tickets and advances `last_check`,
refuting "left exactly as they were before the tick"; no notification
is sent. -/
theorem c1_network_failure_clears_tickets_cex :
    sub1.tickets = [tickA] ∧ sub1.last_check = 0 ∧
    (tickSub ⟨2026, 1, 1⟩ 7 FetchOutcome.httpError true sub1).1.tickets = [] ∧
    (tickSub ⟨2026, 1, 1⟩ 7 FetchOutcome.httpError true sub1).1.last_check = 7 ∧
    ([] : List Ticket) ≠ [tickA] ∧ (7 : Nat) ≠ 0 ∧
    (tickSub ⟨2026, 1, 1⟩ 7 FetchOutcome.httpError true sub1).2.notification = none :=
  ⟨rfl, rfl, rfl, rfl, by decide, by decide, rfl⟩

/-- C1 amended: a fetch that raises (a malformed-response parse error)
leaves the subscription's stored tickets and `last_check` unchanged and
sends no notification; but a network-level fetch failure is swallowed
as an empty offer list, so (for a non-past date) it also sends no
notification yet replaces the stored tickets with `[]` and sets
`last_check` to the current time. -/
theorem c1_fetch_failure_amended (today : PyDate) (now : Nat) (sendOk : Bool)
    (sub : Subscription) :
    tickSub today now FetchOutcome.parseError sendOk sub = (sub, ⟨true, false, none⟩) ∧
    (dateLt sub.date today = false →
      tickSub today now FetchOutcome.httpError sendOk sub =
        ({ sub with tickets := [], last_check := now }, ⟨true, false, none⟩)) := by
  constructor
  · rfl
  · intro h
    simp only [tickSub, get_tickets, get_timetable, h]
    rfl

/-- Witness for `c1_fetch_failure_amended` at `sub1`. -/
theorem c1_fetch_failure_amended_witness :
    dateLt sub1.date ⟨2026, 1, 1⟩ = false ∧
    tickSub ⟨2026, 1, 1⟩ 7 FetchOutcome.parseError true sub1 = (sub1, ⟨true, false, none⟩) ∧
    tickSub ⟨2026, 1, 1⟩ 7 FetchOutcome.httpError true sub1 =
      ({ sub1 with tickets := [], last_check := 7 }, ⟨true, false, none⟩) :=
  ⟨by decide, (c1_fetch_failure_amended ⟨2026, 1, 1⟩ 7 true sub1).1,
   (c1_fetch_failure_amended ⟨2026, 1, 1⟩ 7 true sub1).2 (by decide)⟩

/-- C2 counterexample: the fetch succeeds with one genuinely new offer,
but `send_message` raises; the exception handler then skips the state
update, so the stored tickets are NOT replaced and `last_check` is NOT
set to the current time — refuting "regardless of whether sending the
notification message succeeded". -/
theorem c2_send_failure_skips_update_cex :
    get_tickets (FetchOutcome.ok (Timetable.nonEmpty [trainC])) =
      Except.ok (some [ticketOfTrain trainC]) ∧
    (tickSub ⟨2026, 1, 1⟩ 9 (FetchOutcome.ok (Timetable.nonEmpty [trainC])) false sub2).1 =
      sub2 ∧
    sub2.tickets ≠ [ticketOfTrain trainC] ∧
    sub2.last_check = 0 ∧ (0 : Nat) ≠ 9 ∧
    (tickSub ⟨2026, 1, 1⟩ 9 (FetchOutcome.ok (Timetable.nonEmpty [trainC])) false sub2).2.notification
      = none :=
  ⟨rfl, rfl, by decide, rfl, by decide, rfl⟩

/-- C2 amended: for a successful fetch on a non-past date, the stored
tickets are replaced and `last_check` set to the current time when the
new-offer set is empty, and also when it is non-empty and building and
sending the notification succeed; but when the send raises, the
exception handler skips the update and the subscription is left
unchanged. -/
theorem c2_success_update_amended (today : PyDate) (now : Nat) (fetch : FetchOutcome)
    (sendOk : Bool) (sub : Subscription) (tks : List Ticket)
    (hfetch : get_tickets fetch = Except.ok (some tks))
    (hdate : dateLt sub.date today = false) :
    (_find_new_tickets sub.tickets tks = [] →
      tickSub today now fetch sendOk sub =
        ({ sub with tickets := tks, last_check := now }, ⟨true, false, none⟩)) ∧
    (∀ msg, buildMessage (_find_new_tickets sub.tickets tks) = Except.ok msg →
      sendOk = true →
      tickSub today now fetch sendOk sub =
        ({ sub with tickets := tks, last_check := now },
          ⟨true, false, if (_find_new_tickets sub.tickets tks).isEmpty then none else some msg⟩)) ∧
    (_find_new_tickets sub.tickets tks ≠ [] → sendOk = false →
      (tickSub today now fetch sendOk sub).1 = sub) := by
  refine ⟨?_, ?_, ?_⟩
  · intro h
    simp only [tickSub, hfetch, hdate, h, List.isEmpty_nil]
    rfl
  · intro msg hbuild hsend
    simp only [tickSub, hfetch, hdate]
    cases hne : (_find_new_tickets sub.tickets tks).isEmpty with
    | true =>
      simp only [hne, if_true]
      rfl
    | false =>
      simp only [hne, hbuild, hsend]
      rfl
  · intro h hsend
    simp only [tickSub, hfetch, hdate, hsend]
    cases hne : (_find_new_tickets sub.tickets tks).isEmpty with
    | true => exact absurd (List.isEmpty_iff.mp hne) h
    | false =>
      cases hbuild : buildMessage (_find_new_tickets sub.tickets tks) with
      | error e => rfl
      | ok msg => rfl

/-- Witness for `c2_success_update_amended`: a successful zero-offer
fetch on `sub2` updates the stored tickets and `last_check`. -/
theorem c2_success_update_amended_witness :
    get_tickets (FetchOutcome.ok (Timetable.nonEmpty [])) = Except.ok (some []) ∧
    dateLt sub2.date ⟨2026, 1, 1⟩ = false ∧
    tickSub ⟨2026, 1, 1⟩ 5 (FetchOutcome.ok (Timetable.nonEmpty [])) true sub2 =
      ({ sub2 with tickets := [], last_check := 5 }, ⟨true, false, none⟩) :=
  ⟨rfl, by decide,
   (c2_success_update_amended ⟨2026, 1, 1⟩ 5 (FetchOutcome.ok (Timetable.nonEmpty []))
     true sub2 [] rfl (by decide)).1 (by decide)⟩

/-- C4 counterexample: for a subscription whose date is already past,
the tick still performs the fetch call (the fetch happens at src/bot.py
line 109, before the past-date check at lines 115-117), refuting
"performs no fetch call". -/
theorem c4_past_date_still_fetches_cex :
    dateLt subPast.date ⟨2026, 1, 1⟩ = true ∧
    (tickSub ⟨2026, 1, 1⟩ 3 (FetchOutcome.ok Timetable.empty) true subPast).2.fetched = true :=
  ⟨by decide, rfl⟩

/-- C4 amended: a subscription whose date is strictly before today is
skipped AFTER the fetch: the fetch call is still performed, but no
notification is sent and the subscription's stored state is unchanged
(the subscription is not removed). -/
theorem c4_past_date_inert_amended (today : PyDate) (now : Nat) (fetch : FetchOutcome)
    (sendOk : Bool) (sub : Subscription) (h : dateLt sub.date today = true) :
    (tickSub today now fetch sendOk sub).1 = sub ∧
    (tickSub today now fetch sendOk sub).2.notification = none ∧
    (tickSub today now fetch sendOk sub).2.fetched = true := by
  cases fetch with
  | parseError => exact ⟨rfl, rfl, rfl⟩
  | httpError =>
    simp only [tickSub, get_tickets, get_timetable, h]
    exact ⟨rfl, rfl, rfl⟩
  | ok t =>
    cases t with
    | empty =>
      simp only [tickSub, get_tickets, get_timetable, h]
      exact ⟨rfl, rfl, rfl⟩
    | nonEmpty tp =>
      simp only [tickSub, get_tickets, get_timetable, h]
      exact ⟨rfl, rfl, rfl⟩

/-- Witness for `c4_past_date_inert_amended` at `subPast`. -/
theorem c4_past_date_inert_amended_witness :
    dateLt subPast.date ⟨2026, 1, 1⟩ = true ∧
    (tickSub ⟨2026, 1, 1⟩ 3 FetchOutcome.httpError true subPast).1 = subPast ∧
    (tickSub ⟨2026, 1, 1⟩ 3 FetchOutcome.httpError true subPast).2.notification = none ∧
    (tickSub ⟨2026, 1, 1⟩ 3 FetchOutcome.httpError true subPast).2.fetched = true :=
  ⟨by decide,
   (c4_past_date_inert_amended ⟨2026, 1, 1⟩ 3 FetchOutcome.httpError true subPast (by decide)).1,
   (c4_past_date_inert_amended ⟨2026, 1, 1⟩ 3 FetchOutcome.httpError true subPast (by decide)).2.1,
   (c4_past_date_inert_amended ⟨2026, 1, 1⟩ 3 FetchOutcome.httpError true subPast (by decide)).2.2⟩

/-- A token accepted by the `%d` pattern is one or two characters, all
digits. -/
theorem dayOfToken_shape {t : List Char} {v : Nat} (h : dayOfToken t = some v) :
    (t.length = 1 ∨ t.length = 2) ∧ t.all Char.isDigit = true := by
  match t with
  | [] => simp [dayOfToken] at h
  | [c] =>
    refine ⟨Or.inl rfl, ?_⟩
    by_cases hc : c.isDigit ∧ c ≠ '0'
    · simp [List.all, hc.1]
    · simp [dayOfToken, hc] at h
  | [c1, c2] =>
    refine ⟨Or.inr rfl, ?_⟩
    by_cases hc : c1.isDigit ∧ c2.isDigit
    · simp [List.all, hc.1, hc.2]
    · simp [dayOfToken, hc] at h
  | _ :: _ :: _ :: _ => simp [dayOfToken] at h

/-- A token accepted by the `%m` pattern is one or two characters, all
digits. -/
theorem monthOfToken_shape {t : List Char} {v : Nat} (h : monthOfToken t = some v) :
    (t.length = 1 ∨ t.length = 2) ∧ t.all Char.isDigit = true := by
  match t with
  | [] => simp [monthOfToken] at h
  | [c] =>
    refine ⟨Or.inl rfl, ?_⟩
    by_cases hc : c.isDigit ∧ c ≠ '0'
    · simp [List.all, hc.1]
    · simp [monthOfToken, hc] at h
  | [c1, c2] =>
    refine ⟨Or.inr rfl, ?_⟩
    by_cases hc : c1.isDigit ∧ c2.isDigit
    · simp [List.all, hc.1, hc.2]
    · simp [monthOfToken, hc] at h
  | _ :: _ :: _ :: _ => simp [monthOfToken] at h

/-- A token accepted by the `%Y` pattern is exactly four characters,
all digits. -/
theorem yearOfToken_shape {t : List Char} {v : Nat} (h : yearOfToken t = some v) :
    t.length = 4 ∧ t.all Char.isDigit = true := by
  match t with
  | [] => simp [yearOfToken] at h
  | [a] => simp [yearOfToken] at h
  | [a, b] => simp [yearOfToken] at h
  | [a, b, c] => simp [yearOfToken] at h
  | [a, b, c, d] =>
    refine ⟨rfl, ?_⟩
    by_cases hd : a.isDigit ∧ b.isDigit ∧ c.isDigit ∧ d.isDigit
    · simp [List.all, hd.1, hd.2.1, hd.2.2.1, hd.2.2.2]
    · simp [yearOfToken, hd] at h
  | _ :: _ :: _ :: _ :: _ :: _ => simp [yearOfToken] at h

/-- A successful `parseDMY` decomposes the input into exactly three
dot-separated tokens that the day, month and year patterns accept. -/
theorem parseDMY_split {s : String} {pd : PyDate} (h : parseDMY s = some pd) :
    ∃ dTok mTok yTok, splitOnDot s.data = [dTok, mTok, yTok] ∧
      dayOfToken dTok = some pd.day ∧ monthOfToken mTok = some pd.month ∧
      yearOfToken yTok = some pd.year := by
  unfold parseDMY at h
  rcases hsp : splitOnDot s.data with _ | ⟨dT, _ | ⟨mT, _ | ⟨yT, _ | ⟨z, zs⟩⟩⟩⟩ <;>
    rw [hsp] at h <;> try simp at h
  rcases hd : dayOfToken dT with _ | d <;> rw [hd] at h <;> try simp at h
  rcases hm : monthOfToken mT with _ | m <;> rw [hm] at h <;> try simp at h
  rcases hy : yearOfToken yT with _ | y <;> rw [hy] at h <;> try simp at h
  obtain ⟨-, hpd⟩ := h
  subst hpd
  exact ⟨dT, mT, yT, rfl, hd, hm, hy⟩

/-- C7: in the date state, a parse failure or a parsed date strictly
before today keeps the conversation in `SELECT_DATE`; a parsed date
that is today or later advances it to `CONFIRM_SEARCH`. -/
theorem c7_select_date_transitions (today : PyDate) (s : String) :
    (parseDMY s = none → select_date today s = SELECT_DATE) ∧
    (∀ d, parseDMY s = some d → dateLt d today = true → select_date today s = SELECT_DATE) ∧
    (∀ d, parseDMY s = some d → dateLt d today = false →
      select_date today s = CONFIRM_SEARCH) := by
  refine ⟨?_, ?_, ?_⟩
  · intro h
    simp [select_date, h]
  · intro d h hlt
    simp [select_date, h, hlt]
  · intro d h hlt
    simp [select_date, h, hlt]

/-- Witness for `c7_select_date_transitions`: an unparsable date
(`31.02.2099`), yesterday's date, and today's date, against today =
2026-01-01. -/
theorem c7_select_date_transitions_witness :
    select_date ⟨2026, 1, 1⟩ "31.02.2099" = SELECT_DATE ∧
    select_date ⟨2026, 1, 1⟩ "31.12.2025" = SELECT_DATE ∧
    select_date ⟨2026, 1, 1⟩ "01.01.2026" = CONFIRM_SEARCH :=
  ⟨(c7_select_date_transitions ⟨2026, 1, 1⟩ "31.02.2099").1 (by decide),
   (c7_select_date_transitions ⟨2026, 1, 1⟩ "31.12.2025").2.1 ⟨2025, 12, 31⟩
     (by decide) (by decide),
   (c7_select_date_transitions ⟨2026, 1, 1⟩ "01.01.2026").2.2 ⟨2026, 1, 1⟩
     (by decide) (by decide)⟩

/-- C8 counterexample: the input `3.01.2026` deviates from the
fixed-width `DD.MM.YYYY` format (one-digit day) yet is accepted:
`strptime`'s `%d` pattern also matches a single digit, so the
conversation advances to `CONFIRM_SEARCH` instead of staying in
`SELECT_DATE`. -/
theorem c8_one_digit_day_accepted_cex :
    parseDMY "3.01.2026" = some ⟨2026, 1, 3⟩ ∧
    select_date ⟨2026, 1, 1⟩ "3.01.2026" = CONFIRM_SEARCH ∧
    CONFIRM_SEARCH ≠ SELECT_DATE :=
  ⟨by decide, by decide, by decide⟩

/-- C8 amended: the accepted date text splits on dots into exactly a
day token of one or two digits, a month token of one or two digits,
and a year token of exactly four digits (leading zeros are optional
for day and month, so the validation is not fixed-width); every other
input is rejected and the conversation stays in `SELECT_DATE`. -/
theorem c8_format_amended (today : PyDate) (s : String)
    (h : select_date today s = CONFIRM_SEARCH) :
    ∃ dTok mTok yTok, splitOnDot s.data = [dTok, mTok, yTok] ∧
      (dTok.length = 1 ∨ dTok.length = 2) ∧ dTok.all Char.isDigit = true ∧
      (mTok.length = 1 ∨ mTok.length = 2) ∧ mTok.all Char.isDigit = true ∧
      yTok.length = 4 ∧ yTok.all Char.isDigit = true := by
  unfold select_date at h
  rcases hp : parseDMY s with _ | d <;> rw [hp] at h
  · simp [SELECT_DATE, CONFIRM_SEARCH] at h
  · obtain ⟨dT, mT, yT, hsp, hd, hm, hy⟩ := parseDMY_split hp
    obtain ⟨hdl, hdd⟩ := dayOfToken_shape hd
    obtain ⟨hml, hmd⟩ := monthOfToken_shape hm
    obtain ⟨hyl, hyd⟩ := yearOfToken_shape hy
    exact ⟨dT, mT, yT, hsp, hdl, hdd, hml, hmd, hyl, hyd⟩

/-- Witness for `c8_format_amended` at the accepted input
`02.01.2026`. -/
theorem c8_format_amended_witness :
    select_date ⟨2026, 1, 1⟩ "02.01.2026" = CONFIRM_SEARCH ∧
    ∃ dTok mTok yTok, splitOnDot "02.01.2026".data = [dTok, mTok, yTok] ∧
      (dTok.length = 1 ∨ dTok.length = 2) ∧ dTok.all Char.isDigit = true ∧
      (mTok.length = 1 ∨ mTok.length = 2) ∧ mTok.all Char.isDigit = true ∧
      yTok.length = 4 ∧ yTok.all Char.isDigit = true :=
  ⟨by decide, c8_format_amended ⟨2026, 1, 1⟩ "02.01.2026" (by decide)⟩
